import Mathlib

/-!
Verification of the cyphergraphexporter configuration layer
(otelcol-custom/exporter/cyphergraphexporter/config.go) and of the
spec-described registry and retry components.

Strings are embedded as lists of characters (`List Char`); the Go code
only manipulates ASCII in every situation the theorems below exercise,
so bytes and characters coincide there.
-/

namespace CypherGraph

/-! ### Embedding of the Go standard library net/url parser

`Config.Validate` calls `url.Parse`; the definitions below are translated
from the Go standard library sources of net/url (function by function:
`stringContainsCTLByte`, `getScheme`, `unescape`, `shouldEscape`,
`validOptionalPort`, `parseHost`, `validUserinfo`, `parseAuthority`,
`parse`, `Parse`).  Unescaping is modelled as a success/failure check and
the resulting URL keeps raw field text, because `Config.Validate`
discards the parsed URL and only propagates the error. -/

def isCTL (c : Char) : Bool := c.toNat < 32 || c.toNat == 127

def containsCTL (s : List Char) : Bool := s.any isCTL

def isAlphaCh (c : Char) : Bool := ('a' ≤ c && c ≤ 'z') || ('A' ≤ c && c ≤ 'Z')

def isDigitCh (c : Char) : Bool := '0' ≤ c && c ≤ '9'

def ishex (c : Char) : Bool :=
  isDigitCh c || ('a' ≤ c && c ≤ 'f') || ('A' ≤ c && c ≤ 'F')

def unhex (c : Char) : Nat :=
  if isDigitCh c then c.toNat - 48
  else if 'a' ≤ c && c ≤ 'f' then c.toNat - 97 + 10
  else if 'A' ≤ c && c ≤ 'F' then c.toNat - 65 + 10
  else 0

/-- Loop of Go getScheme: walks the raw URL; `raw` is the whole input,
the second argument the suffix not yet examined, the third the index. -/
def getSchemeLoop (raw : List Char) : List Char → Nat → Except String (List Char × List Char)
  | [], _ => .ok ([], raw)
  | c :: rest, i =>
    if isAlphaCh c then getSchemeLoop raw rest (i + 1)
    else if isDigitCh c || c == '+' || c == '-' || c == '.' then
      if i == 0 then .ok ([], raw) else getSchemeLoop raw rest (i + 1)
    else if c == ':' then
      if i == 0 then .error "missing protocol scheme"
      else .ok (raw.take i, rest)
    else .ok ([], raw)

/-- Go getScheme: splits a leading scheme from the raw URL. -/
def getSchemeGo (raw : List Char) : Except String (List Char × List Char) :=
  getSchemeLoop raw raw 0

/-- The escaping context, Go encoding constants of net/url. -/
inductive EscMode where
  | host
  | zone
  | userPassword
  | path
  | fragPart
deriving DecidableEq

/-- Go shouldEscape restricted to the host and zone modes (the only modes
for which unescape consults it). -/
def shouldEscapeHost (c : Char) : Bool :=
  if isAlphaCh c || isDigitCh c then false
  else if c == '!' || c == '$' || c == '&' || c.toNat == 39 || c == '(' ||
      c == ')' || c == '*' || c == '+' || c == ',' || c == ';' || c == '=' ||
      c == ':' || c == '[' || c == ']' || c == '<' || c == '>' || c.toNat == 34 then false
  else if c == '-' || c == '_' || c == '.' || c == '~' then false
  else true

/-- Error check of Go unescape: true iff Go unescape(s, mode) returns an
error (malformed percent escape, forbidden percent escape for the host and
zone modes, or a host/zone character that would need escaping). -/
def unescapeErr : EscMode → List Char → Bool
  | _, [] => false
  | mode, '%' :: a :: b :: rest =>
    if ishex a && ishex b then
      if mode = .host && unhex a < 8 && !(a == '2' && b == '5') then true
      else if mode = .zone &&
          !(a == '2' && b == '5') && 16 * unhex a + unhex b ≠ 32 &&
          shouldEscapeHost (Char.ofNat (16 * unhex a + unhex b)) then true
      else unescapeErr mode rest
    else true
  | _, '%' :: _ => true
  | mode, '+' :: rest => unescapeErr mode rest
  | mode, c :: rest =>
    if (mode = .host || mode = .zone) && c.toNat < 128 && shouldEscapeHost c then true
    else unescapeErr mode rest

/-- Go validOptionalPort: empty, or a colon followed by digits only. -/
def validOptionalPort : List Char → Bool
  | [] => true
  | c :: rest => c == ':' && rest.all isDigitCh

/-- Index of the last occurrence of a character, if any. -/
def lastIdxOf (c : Char) (s : List Char) : Option Nat :=
  match s.reverse.findIdx? (fun x => x == c) with
  | none => none
  | some j => some (s.length - 1 - j)

/-- Index of the first occurrence of the three characters percent-2-5. -/
def idxOfPct25 : List Char → Option Nat
  | '%' :: '2' :: '5' :: _ => some 0
  | _ :: rest =>
    match idxOfPct25 rest with
    | none => none
    | some n => some (n + 1)
  | [] => none

/-- Go parseHost, reduced to its success/failure outcome. -/
def parseHostChk (host : List Char) : Except String Unit :=
  if host.head? == some '[' then
    match lastIdxOf ']' host with
    | none => .error "missing closing bracket in host"
    | some i =>
      if !validOptionalPort (host.drop (i + 1)) then .error "invalid port after host"
      else
        match idxOfPct25 (host.take i) with
        | some zone =>
          if unescapeErr .host (host.take zone) then .error "invalid URL escape"
          else if unescapeErr .zone ((host.take i).drop zone) then .error "invalid URL escape"
          else if unescapeErr .host (host.drop i) then .error "invalid URL escape"
          else .ok ()
        | none =>
          if unescapeErr .host host then .error "invalid URL escape"
          else .ok ()
  else
    match lastIdxOf ':' host with
    | some i =>
      if !validOptionalPort (host.drop i) then .error "invalid port after host"
      else if unescapeErr .host host then .error "invalid URL escape"
      else .ok ()
    | none =>
      if unescapeErr .host host then .error "invalid URL escape"
      else .ok ()

/-- Go validUserinfo: characters allowed in the userinfo component. -/
def isUserinfoChar (c : Char) : Bool :=
  isAlphaCh c || isDigitCh c || c == '-' || c == '.' || c == '_' || c == ':' ||
    c == '~' || c == '!' || c == '$' || c == '&' || c.toNat == 39 || c == '(' ||
    c == ')' || c == '*' || c == '+' || c == ',' || c == ';' || c == '=' ||
    c == '%' || c == '@'

def validUserinfo (s : List Char) : Bool := s.all isUserinfoChar

/-- Go parseAuthority: returns the raw userinfo and host on success. -/
def parseAuthority (authority : List Char) : Except String (List Char × List Char) :=
  let atIdx := lastIdxOf '@' authority
  let hostPart := match atIdx with
    | none => authority
    | some i => authority.drop (i + 1)
  match parseHostChk hostPart with
  | .error e => .error e
  | .ok _ =>
    match atIdx with
    | none => .ok ([], hostPart)
    | some i =>
      let userinfo := authority.take i
      if !validUserinfo userinfo then .error "net/url: invalid userinfo"
      else if !(userinfo.contains ':') then
        if unescapeErr .userPassword userinfo then .error "invalid URL escape"
        else .ok (userinfo, hostPart)
      else
        let uname := userinfo.takeWhile (fun c => c != ':')
        let pword := userinfo.drop (uname.length + 1)
        if unescapeErr .userPassword uname then .error "invalid URL escape"
        else if unescapeErr .userPassword pword then .error "invalid URL escape"
        else .ok (userinfo, hostPart)

/-- The parsed URL structure of Go net/url, with raw (not unescaped)
field text. -/
structure GoURL where
  scheme : List Char
  opaquePart : List Char
  userinfo : List Char
  host : List Char
  path : List Char
  forceQuery : Bool
  rawQuery : List Char
  fragPiece : List Char
  omitHost : Bool
deriving DecidableEq

def emptyURL : GoURL :=
  { scheme := [], opaquePart := [], userinfo := [], host := [], path := [],
    forceQuery := false, rawQuery := [], fragPiece := [], omitHost := false }

/-- Go split(s, sep, true): cut at the first occurrence of sep. -/
def splitCut (s : List Char) (sep : Char) : List Char × List Char :=
  match s.findIdx? (fun x => x == sep) with
  | none => (s, [])
  | some i => (s.take i, s.drop (i + 1))

/-- True iff the string ends in a question mark and holds no other one
(the ForceQuery condition of Go parse). -/
def forceQueryCheck (s : List Char) : Bool :=
  s.getLast? == some '?' && !(s.dropLast.contains '?')

def startsWithSlashes (n : Nat) (s : List Char) : Bool :=
  s.take n == List.replicate n '/'

/-- Tail of Go parse shared by both root checks: the authority section and
setPath. -/
def parseTail (scheme rest1 : List Char) (forceQuery : Bool) (rawQuery : List Char) :
    Except String GoURL :=
  if (scheme != [] || !startsWithSlashes 3 rest1) && startsWithSlashes 2 rest1 then
    let after := rest1.drop 2
    let authority := match after.findIdx? (fun c => c == '/') with
      | none => after
      | some i => after.take i
    let rest2 := match after.findIdx? (fun c => c == '/') with
      | none => ([] : List Char)
      | some i => after.drop i
    match parseAuthority authority with
    | .error e => .error e
    | .ok uh =>
      if unescapeErr .path rest2 then .error "invalid URL escape"
      else .ok { emptyURL with
        scheme := scheme, userinfo := uh.1, host := uh.2, path := rest2,
        forceQuery := forceQuery, rawQuery := rawQuery }
  else
    let omitHost := scheme != [] && rest1.head? == some '/'
    if unescapeErr .path rest1 then .error "invalid URL escape"
    else .ok { emptyURL with
      scheme := scheme, path := rest1, forceQuery := forceQuery,
      rawQuery := rawQuery, omitHost := omitHost }

/-- Go parse(rawURL, viaRequest:=false), the body called by url.Parse after
the fragment has been cut off. -/
def parseBody (rawURL : List Char) : Except String GoURL :=
  if containsCTL rawURL then .error "net/url: invalid control character in URL"
  else if rawURL == ['*'] then .ok { emptyURL with path := ['*'] }
  else
    match getSchemeGo rawURL with
    | .error e => .error e
    | .ok sr =>
      let scheme := sr.1.map Char.toLower
      let rest0 := sr.2
      let rest1 := if forceQueryCheck rest0 then rest0.dropLast else (splitCut rest0 '?').1
      let forceQuery := forceQueryCheck rest0
      let rawQuery := if forceQueryCheck rest0 then [] else (splitCut rest0 '?').2
      if rest1.head? != some '/' && scheme != [] then
        .ok { emptyURL with
          scheme := scheme, opaquePart := rest1, forceQuery := forceQuery, rawQuery := rawQuery }
      else if rest1.head? != some '/' && (rest1.takeWhile (fun c => c != '/')).contains ':' then
        .error "first path segment in URL cannot contain colon"
      else
        parseTail scheme rest1 forceQuery rawQuery

/-- Go url.Parse: cut the fragment, parse the body, then validate and
attach the fragment. -/
def urlParse (rawURL : List Char) : Except String GoURL :=
  let uf := splitCut rawURL '#'
  match parseBody uf.1 with
  | .error e => .error e
  | .ok u =>
    if uf.2 == [] then .ok u
    else if unescapeErr .fragPart uf.2 then .error "invalid URL escape"
    else .ok { u with fragPiece := uf.2 }

/-- url.Parse on a Lean string. -/
def urlParseS (s : String) : Except String GoURL := urlParse s.data

/-- True iff Go url.Parse accepts the string, the well-formedness test
Config.Validate performs first. -/
def uriWellFormed (s : String) : Bool :=
  match urlParseS s with
  | .ok _ => true
  | .error _ => false

/-! ### Embedding of config.go -/

/-- The constant defaultDatabaseURI of config.go. -/
def defaultDatabaseURI : String := "bolt://localhost:7687"

/-- The constant defaultUserAgent of config.go. -/
def defaultUserAgent : String := "opentelemetrycollector.cyphergraphexporter"

/-- ResourceMapper of config.go: label_id plus other_labels. -/
structure ResourceMapper where
  labelID : String
  otherLabels : List String
deriving DecidableEq

/-- The map defaultResourcesMappers of config.go.  A Go map is an unordered
key-indexed collection; it is embedded as an association list with distinct
keys, and the semconv v1.24.0 key constants are expanded to the attribute
strings they denote. -/
def defaultResourcesMappers : List (String × ResourceMapper) :=
  [ ("service",
      { labelID := "service.name",
        otherLabels := ["service.version", "service.instance.id", "service.namespace"] }),
    ("container",
      { labelID := "container.id", otherLabels := ["container.name"] }),
    ("container.image",
      { labelID := "container.image.id", otherLabels := ["container.image.name"] }),
    ("host",
      { labelID := "host.id",
        otherLabels := ["host.name", "host.image.id", "host.image.name", "host.ip", "host.type"] }),
    ("deployment",
      { labelID := "deployment.environment", otherLabels := [] }),
    ("k8s.cluster",
      { labelID := "k8s.cluster.uid", otherLabels := ["k8s.cluster.name"] }),
    ("k8s.node",
      { labelID := "k8s.node.name", otherLabels := ["k8s.node.uid"] }),
    ("k8s.pod",
      { labelID := "k8s.pod.uid", otherLabels := ["k8s.pod.name"] }) ]

/-- configretry.BackOffConfig, the retry_on_failure parameters embedded in
Config.  Durations are nanosecond counts; the float-valued factors are
embedded as rationals. -/
structure BackOffConfig where
  enabled : Bool
  initialInterval : Int
  randomizationFactor : ℚ
  multiplier : ℚ
  maxInterval : Int
  maxElapsedTime : Int
deriving DecidableEq

def defaultBackOff : BackOffConfig :=
  { enabled := false, initialInterval := 0, randomizationFactor := 0,
    multiplier := 0, maxInterval := 0, maxElapsedTime := 0 }

/-- Config of config.go.  configopaque.String fields (password,
bearer token, kerberos ticket) are strings whose opacity only affects
logging, not the validation logic. -/
structure Config where
  backOffConfig : BackOffConfig
  databaseURI : String
  username : String
  password : String
  bearerToken : String
  kerberosTicket : String
  userAgent : String
  resourceMappers : List (String × ResourceMapper)
deriving DecidableEq

/-- The error errMultipleAuthMethod of config.go. -/
def errMultipleAuthMethod : String := "cannot mix multiple authentication methods"

/-- Config.Validate of config.go: parse the database URI, then reject
mixed authentication methods. -/
def Config.Validate (cfg : Config) : Option String :=
  match urlParseS cfg.databaseURI with
  | .error e => some e
  | .ok _ =>
    if cfg.username ≠ "" ∧ (cfg.bearerToken ≠ "" ∨ cfg.kerberosTicket ≠ "") then
      some errMultipleAuthMethod
    else if cfg.bearerToken ≠ "" ∧ cfg.kerberosTicket ≠ "" then
      some errMultipleAuthMethod
    else none

/-- State-passing embedding of the Config.Validate method: the Go body
only ever reads the receiver, so each exit path returns the receiver state
at that point alongside the result.  The function is pure: its Go body
calls only url.Parse and string comparisons, no I/O and no network. -/
def Config.ValidateRun (cfg : Config) : Config × Option String :=
  match urlParseS cfg.databaseURI with
  | .error e => (cfg, some e)
  | .ok _ =>
    if cfg.username ≠ "" ∧ (cfg.bearerToken ≠ "" ∨ cfg.kerberosTicket ≠ "") then
      (cfg, some errMultipleAuthMethod)
    else if cfg.bearerToken ≠ "" ∧ cfg.kerberosTicket ≠ "" then
      (cfg, some errMultipleAuthMethod)
    else (cfg, none)

/-- The credential conflict condition of Config.Validate: more than one of
username, bearer token and kerberos ticket non-empty. -/
def credConflict (cfg : Config) : Prop :=
  (cfg.username ≠ "" ∧ cfg.bearerToken ≠ "") ∨
    (cfg.username ≠ "" ∧ cfg.kerberosTicket ≠ "") ∨
    (cfg.bearerToken ≠ "" ∧ cfg.kerberosTicket ≠ "")

instance (cfg : Config) : Decidable (credConflict cfg) := by
  unfold credConflict; infer_instance

/-- The scheme families supported per the DatabaseURI documentation of
config.go. -/
def supportedSchemes : List String :=
  ["bolt", "bolt+s", "bolt+ssc", "neo4j", "neo4j+s", "neo4j+ssc"]

/-! ### Spec-modelled registry (ResourceMapperRegistry.ApplicableMappers)

The registry implementation is not among the available sources; only its
configuration types are (config.go).  It is modelled from the spec. -/

/-- Modelled from the spec: a telemetry Resource, an unordered mapping from
attribute key to scalar value, embedded as an association list of
string-valued attributes (the spec only depends on Resources exposing a
string-keyed attribute lookup). -/
def Resource : Type := List (String × String)

/-- Modelled from the spec: the Resource contains a non-empty value for the
given attribute key. -/
def Resource.hasNonEmptyAttr (r : Resource) (key : String) : Bool :=
  match List.lookup key r with
  | some v => !(v == "")
  | none => false

/-- Modelled from the spec: the attribute lookup of a Resource. -/
def Resource.attr (r : Resource) (key : String) : Option String :=
  List.lookup key r

/-- Modelled from the spec: ApplicableMappers of the missing registry
implementation.  A mapper is applicable to a Resource iff the Resource
contains a non-empty value for its LabelID; the others are skipped
silently. -/
def applicableMappers (registry : List (String × ResourceMapper)) (r : Resource) :
    List (String × ResourceMapper) :=
  registry.filter (fun e => r.hasNonEmptyAttr e.2.labelID)

/-! ### Spec-modelled retry loop (GraphWriter / RetryPolicy)

The backoff loop lives in the configretry/backoff machinery that executes
the BackOffConfig of config.go; its implementation is not among the
available sources and is modelled from the spec. -/

/-- Modelled from the spec: the RetryPolicy parameters (initial backoff
interval, backoff multiplier, maximum interval, maximum total elapsed
time), over rational time units. -/
structure RetryPolicy where
  initialInterval : ℚ
  multiplier : ℚ
  maxInterval : ℚ
  maxElapsedTime : ℚ
deriving DecidableEq

/-- Modelled from the spec: the explicit state of the backoff loop,
elapsed time since the first attempt and the current interval. -/
structure BackoffState where
  elapsed : ℚ
  interval : ℚ
deriving DecidableEq

/-- Modelled from the spec: how one attempt of the retried operation
fails. -/
inductive FailureKind where
  | transient
  | terminal
deriving DecidableEq

/-- Modelled from the spec: how a retried write ends — success, or a
terminal failure report (either an immediately-reported terminal error or
an exhausted backoff budget). -/
inductive RetryOutcome where
  | success
  | terminalFailure
deriving DecidableEq

/-- Modelled from the spec: the retry loop of the GraphWriter.  The input
list gives the outcome of each successive attempt; an exhausted list means
the next attempt succeeds.  On a transient failure: if the elapsed time
since the first attempt exceeds the maximum, stop and report terminal
failure; otherwise sleep for the minimum of the current interval and the
maximum interval, multiply the interval by the multiplier, and retry.
A terminal failure is reported immediately, without retrying.  The result
pairs the list of performed backoff waits with the final outcome. -/
def retryRun (p : RetryPolicy) (s : BackoffState) :
    List FailureKind → List ℚ × RetryOutcome
  | [] => ([], .success)
  | .terminal :: _ => ([], .terminalFailure)
  | .transient :: rest =>
    if p.maxElapsedTime < s.elapsed then ([], .terminalFailure)
    else
      let wait := if s.interval ≤ p.maxInterval then s.interval else p.maxInterval
      let next := retryRun p ⟨s.elapsed + wait, s.interval * p.multiplier⟩ rest
      (wait :: next.1, next.2)

/-- Modelled from the spec: a full run of the retry loop from the initial
state, elapsed time zero and the initial interval. -/
def retryFromStart (p : RetryPolicy) (fails : List FailureKind) : List ℚ × RetryOutcome :=
  retryRun p ⟨0, p.initialInterval⟩ fails

/-- Number of occurrences of an element in a list (used to state that an
applicable mapper is listed exactly once). -/
def occurrences {α : Type} [DecidableEq α] (x : α) : List α → Nat
  | [] => 0
  | y :: ys => (if y = x then 1 else 0) + occurrences x ys

/-! ### Concrete configurations used by the witnesses -/

/-- A configuration with the default database URI and no credentials. -/
def anonymousConfig : Config :=
  { backOffConfig := defaultBackOff, databaseURI := "bolt://localhost:7687",
    username := "", password := "", bearerToken := "", kerberosTicket := "",
    userAgent := defaultUserAgent, resourceMappers := [] }

/-- Username and bearer token both set. -/
def conflictedConfig : Config :=
  { anonymousConfig with username := "neo4j", bearerToken := "sso-token" }

/-- Password and bearer token both set, username empty. -/
def passwordWithBearerConfig : Config :=
  { anonymousConfig with password := "secret", bearerToken := "sso-token" }

/-- Bearer token and kerberos ticket both set. -/
def bearerKerberosConfig : Config :=
  { anonymousConfig with bearerToken := "sso-token", kerberosTicket := "krb" }

/-- A database URI Go url.Parse rejects (missing protocol scheme). -/
def badURIConfig : Config :=
  { anonymousConfig with databaseURI := ":" }

/-- An empty database URI. -/
def emptyURIConfig : Config :=
  { anonymousConfig with databaseURI := "" }

/-- A Resource carrying a service name, an empty host id and no other
attributes. -/
def sampleResource : Resource :=
  [("service.name", "checkout"), ("host.id", "")]

/-! ### Helper lemmas -/

theorem uriWellFormed_iff (s : String) :
    uriWellFormed s = true ↔ ∃ u, urlParseS s = Except.ok u := by
  unfold uriWellFormed
  cases h : urlParseS s with
  | error e => simp
  | ok u => simp

theorem validate_of_parse_error (cfg : Config) (e : String)
    (he : urlParseS cfg.databaseURI = Except.error e) :
    Config.Validate cfg = some e := by
  unfold Config.Validate
  rw [he]

theorem validate_of_parse_ok (cfg : Config) (u : GoURL)
    (hu : urlParseS cfg.databaseURI = Except.ok u) :
    Config.Validate cfg =
      (if cfg.username ≠ "" ∧ (cfg.bearerToken ≠ "" ∨ cfg.kerberosTicket ≠ "") then
        some errMultipleAuthMethod
      else if cfg.bearerToken ≠ "" ∧ cfg.kerberosTicket ≠ "" then
        some errMultipleAuthMethod
      else none) := by
  unfold Config.Validate
  rw [hu]

theorem validate_none_of_wf_no_conflict (cfg : Config)
    (hwf : uriWellFormed cfg.databaseURI = true) (hcred : ¬ credConflict cfg) :
    Config.Validate cfg = none := by
  obtain ⟨u, hu⟩ := (uriWellFormed_iff cfg.databaseURI).mp hwf
  rw [validate_of_parse_ok cfg u hu]
  unfold credConflict at hcred
  split_ifs with h1 h2
  · tauto
  · tauto
  · rfl

theorem occurrences_filter_of_pos {α : Type} [DecidableEq α] (p : α → Bool) (x : α)
    (h : p x = true) : ∀ l : List α, occurrences x (l.filter p) = occurrences x l := by
  intro l
  induction l with
  | nil => rfl
  | cons y ys ih =>
    rcases eq_or_ne y x with rfl | hy
    · simp [List.filter_cons, h, occurrences, ih]
    · cases hpy : p y
      · simp [List.filter_cons, hpy, occurrences, hy, ih]
      · simp [List.filter_cons, hpy, occurrences, hy, ih]

theorem occurrences_eq_zero_of_not_mem {α : Type} [DecidableEq α] (x : α)
    (l : List α) (h : x ∉ l) : occurrences x l = 0 := by
  induction l with
  | nil => rfl
  | cons y ys ih =>
    simp only [List.mem_cons, not_or] at h
    have hy : ¬ y = x := fun hyx => h.1 hyx.symm
    simp [occurrences, hy, ih h.2]

theorem occurrences_eq_one_of_mem_nodup_keys {α β : Type} [DecidableEq α] [DecidableEq β]
    (x : α × β) (l : List (α × β)) (hmem : x ∈ l) (hkeys : (l.map Prod.fst).Nodup) :
    occurrences x l = 1 := by
  induction l with
  | nil => cases hmem
  | cons y ys ih =>
    rw [List.map_cons, List.nodup_cons] at hkeys
    rcases eq_or_ne y x with rfl | hy
    · have hnot : y ∉ ys := fun hmem2 => hkeys.1 (List.mem_map_of_mem Prod.fst hmem2)
      simp [occurrences, occurrences_eq_zero_of_not_mem y ys hnot]
    · simp only [List.mem_cons] at hmem
      rcases hmem with rfl | hmem2
      · exact absurd rfl hy
      · simp [occurrences, hy, ih hmem2 hkeys.2]

/-! ### Claim theorems -/

/-- C1: for every Config whose database URI parses, Validate returns the
mixed-authentication error exactly when more than one of username, bearer
token and kerberos ticket is non-empty, and nil when at most one of the
three is non-empty. -/
theorem validate_credential_exclusivity (cfg : Config)
    (hparse : uriWellFormed cfg.databaseURI = true) :
    (credConflict cfg → Config.Validate cfg = some errMultipleAuthMethod) ∧
    (¬ credConflict cfg → Config.Validate cfg = none) := by
  obtain ⟨u, hu⟩ := (uriWellFormed_iff cfg.databaseURI).mp hparse
  rw [validate_of_parse_ok cfg u hu]
  unfold credConflict
  constructor
  · intro hd
    split_ifs with h1 h2
    · rfl
    · rfl
    · tauto
  · intro hd
    split_ifs with h1 h2
    · tauto
    · tauto
    · rfl

/-- C1 witness: a config mixing username and bearer token is rejected with
the mixed-authentication error. -/
theorem validate_credential_exclusivity_witness :
    Config.Validate conflictedConfig = some errMultipleAuthMethod :=
  (validate_credential_exclusivity conflictedConfig (by decide)).1 (by decide)

/-- C2 counterexample: a Config whose password and bearer token are both
non-empty while the username is empty passes Validate, so Validate does
not reject every pair of non-empty credential forms. -/
theorem password_conflict_accepted :
    passwordWithBearerConfig.password ≠ "" ∧
    passwordWithBearerConfig.bearerToken ≠ "" ∧
    Config.Validate passwordWithBearerConfig = none := by decide

/-- C2 amended: Validate treats the basic-auth form as present exactly when
the username is non-empty and never inspects the password, so it reports a
configuration error whenever more than one of username, bearer token and
kerberos ticket is non-empty. -/
theorem validate_rejects_multiple_credentials (cfg : Config)
    (hd : credConflict cfg) : Config.Validate cfg ≠ none := by
  cases h : urlParseS cfg.databaseURI with
  | error e =>
    rw [validate_of_parse_error cfg e h]
    simp
  | ok u =>
    rw [validate_of_parse_ok cfg u h]
    unfold credConflict at hd
    split_ifs with h1 h2
    · simp
    · simp
    · tauto

/-- C2 witness: bearer token plus kerberos ticket is rejected. -/
theorem validate_rejects_multiple_credentials_witness :
    Config.Validate bearerKerberosConfig ≠ none :=
  validate_rejects_multiple_credentials bearerKerberosConfig (by decide)

/-- C3: Validate propagates a parse error for every database URI rejected
by url.Parse, and returns nil, absent any credential conflict, for a URI of
each of the six supported scheme families. -/
theorem validate_uri_wellformedness :
    (∀ cfg : Config, uriWellFormed cfg.databaseURI = false →
      ∃ e, Config.Validate cfg = some e) ∧
    (∀ sch ∈ supportedSchemes, ∀ cfg : Config,
      cfg.databaseURI = sch ++ "://localhost:7687" → ¬ credConflict cfg →
      Config.Validate cfg = none) := by
  constructor
  · intro cfg h
    cases he : urlParseS cfg.databaseURI with
    | error e => exact ⟨e, validate_of_parse_error cfg e he⟩
    | ok u =>
      rw [(uriWellFormed_iff cfg.databaseURI).mpr ⟨u, he⟩] at h
      cases h
  · intro sch hsch cfg huri hcred
    simp only [supportedSchemes, List.mem_cons, List.not_mem_nil, or_false] at hsch
    rcases hsch with rfl | rfl | rfl | rfl | rfl | rfl <;>
      exact validate_none_of_wf_no_conflict cfg (by rw [huri]; decide) hcred

/-- C3 witness: the URI made of a bare colon is rejected, and the default
bolt URI with no credentials validates. -/
theorem validate_uri_wellformedness_witness :
    (∃ e, Config.Validate badURIConfig = some e) ∧
    Config.Validate anonymousConfig = none :=
  ⟨validate_uri_wellformedness.1 badURIConfig (by decide),
   validate_uri_wellformedness.2 "bolt" (by decide) anonymousConfig (by decide) (by decide)⟩

/-- C4: the built-in default mapper table has exactly 8 entries, keyed by
the eight documented label names, and each entry carries the documented
semantic-convention LabelID. -/
theorem default_mappers_table :
    defaultResourcesMappers.length = 8 ∧
    defaultResourcesMappers.map Prod.fst =
      ["service", "container", "container.image", "host", "deployment",
        "k8s.cluster", "k8s.node", "k8s.pod"] ∧
    (List.lookup "service" defaultResourcesMappers).map ResourceMapper.labelID =
      some "service.name" ∧
    (List.lookup "container" defaultResourcesMappers).map ResourceMapper.labelID =
      some "container.id" ∧
    (List.lookup "container.image" defaultResourcesMappers).map ResourceMapper.labelID =
      some "container.image.id" ∧
    (List.lookup "host" defaultResourcesMappers).map ResourceMapper.labelID =
      some "host.id" ∧
    (List.lookup "deployment" defaultResourcesMappers).map ResourceMapper.labelID =
      some "deployment.environment" ∧
    (List.lookup "k8s.cluster" defaultResourcesMappers).map ResourceMapper.labelID =
      some "k8s.cluster.uid" ∧
    (List.lookup "k8s.node" defaultResourcesMappers).map ResourceMapper.labelID =
      some "k8s.node.name" ∧
    (List.lookup "k8s.pod" defaultResourcesMappers).map ResourceMapper.labelID =
      some "k8s.pod.uid" := by decide

/-- C5: on a terminal failure the loop reports immediately without waiting;
on a transient failure it stops and reports terminal failure when the
elapsed time exceeds the maximum, and otherwise waits the minimum of the
current interval and the maximum interval before retrying with the interval
multiplied; with initial interval 1, multiplier 2, max interval 8 and max
elapsed 10, continuous transient failures produce the waits 1, 2, 4, 8 and
then a terminal-failure report once the cumulative elapsed time exceeds
10. -/
theorem retry_loop_behavior :
    (∀ (p : RetryPolicy) (s : BackoffState) (rest : List FailureKind),
      retryRun p s (.terminal :: rest) = ([], .terminalFailure)) ∧
    (∀ (p : RetryPolicy) (s : BackoffState) (rest : List FailureKind),
      p.maxElapsedTime < s.elapsed →
        retryRun p s (.transient :: rest) = ([], .terminalFailure)) ∧
    (∀ (p : RetryPolicy) (s : BackoffState) (rest : List FailureKind),
      ¬ p.maxElapsedTime < s.elapsed →
        retryRun p s (.transient :: rest) =
          (min s.interval p.maxInterval ::
              (retryRun p ⟨s.elapsed + min s.interval p.maxInterval,
                s.interval * p.multiplier⟩ rest).1,
            (retryRun p ⟨s.elapsed + min s.interval p.maxInterval,
              s.interval * p.multiplier⟩ rest).2)) ∧
    retryFromStart ⟨1, 2, 8, 10⟩ (List.replicate 8 .transient) =
      ([1, 2, 4, 8], .terminalFailure) := by
  refine ⟨fun p s rest => rfl, ?_, ?_, ?_⟩
  · intro p s rest h
    unfold retryRun
    rw [if_pos h]
  · intro p s rest h
    simp only [min_def]
    conv_lhs => rw [retryRun]
    rw [if_neg h]
  · norm_num [retryFromStart, retryRun, List.replicate]

/-- C5 witness: with elapsed 15 over a maximum of 10 the next transient
failure is reported terminally at once; a terminal failure is reported
with no waits; below the budget the wait is the capped interval. -/
theorem retry_loop_behavior_witness :
    retryRun ⟨1, 2, 8, 10⟩ ⟨15, 16⟩ [.transient] = ([], .terminalFailure) ∧
    retryRun ⟨1, 2, 8, 10⟩ ⟨0, 1⟩ [.terminal, .transient] = ([], .terminalFailure) ∧
    retryRun ⟨1, 2, 8, 10⟩ ⟨0, 1⟩ [.transient] =
      (min (1 : ℚ) 8 :: (retryRun ⟨1, 2, 8, 10⟩ ⟨0 + min (1 : ℚ) 8, 1 * 2⟩ []).1,
        (retryRun ⟨1, 2, 8, 10⟩ ⟨0 + min (1 : ℚ) 8, 1 * 2⟩ []).2) :=
  ⟨retry_loop_behavior.2.1 ⟨1, 2, 8, 10⟩ ⟨15, 16⟩ [.transient] (by norm_num),
   retry_loop_behavior.1 ⟨1, 2, 8, 10⟩ ⟨0, 1⟩ [.transient],
   retry_loop_behavior.2.2.1 ⟨1, 2, 8, 10⟩ ⟨0, 1⟩ [] (by norm_num)⟩

/-- C6: a registry entry appears exactly once among the applicable mappers
of a Resource holding a non-empty value for its LabelID, and is silently
excluded when that attribute is absent. -/
theorem applicable_mappers_membership (registry : List (String × ResourceMapper))
    (r : Resource) (l : String) (m : ResourceMapper)
    (hmem : (l, m) ∈ registry) (hkeys : (registry.map Prod.fst).Nodup) :
    (r.hasNonEmptyAttr m.labelID = true →
      occurrences (l, m) (applicableMappers registry r) = 1) ∧
    (r.attr m.labelID = none → (l, m) ∉ applicableMappers registry r) := by
  constructor
  · intro hp
    unfold applicableMappers
    rw [occurrences_filter_of_pos (fun e => r.hasNonEmptyAttr e.2.labelID) (l, m) hp]
    exact occurrences_eq_one_of_mem_nodup_keys (l, m) registry hmem hkeys
  · intro habs hin
    have hp := List.of_mem_filter hin
    unfold Resource.hasNonEmptyAttr at hp
    unfold Resource.attr at habs
    rw [habs] at hp
    simp at hp

/-- C6 witness: on the default table, a resource with a non-empty service
name and no pod attributes keeps the service mapper exactly once and drops
the pod mapper. -/
theorem applicable_mappers_membership_witness :
    occurrences
      ("service",
        { labelID := "service.name",
          otherLabels := ["service.version", "service.instance.id", "service.namespace"] })
      (applicableMappers defaultResourcesMappers sampleResource) = 1 ∧
    ("k8s.pod", { labelID := "k8s.pod.uid", otherLabels := ["k8s.pod.name"] }) ∉
      applicableMappers defaultResourcesMappers sampleResource :=
  ⟨(applicable_mappers_membership defaultResourcesMappers sampleResource "service"
      { labelID := "service.name",
        otherLabels := ["service.version", "service.instance.id", "service.namespace"] }
      (by decide) (by decide)).1 (by decide),
   (applicable_mappers_membership defaultResourcesMappers sampleResource "k8s.pod"
      { labelID := "k8s.pod.uid", otherLabels := ["k8s.pod.name"] }
      (by decide) (by decide)).2 (by decide)⟩

/-- C7: Validate leaves the configuration unchanged on every exit path and
produces exactly its pass/fail result; the embedding is a pure function, so
no connection is attempted. -/
theorem validate_preserves_config (cfg : Config) :
    (Config.ValidateRun cfg).1 = cfg ∧ (Config.ValidateRun cfg).2 = Config.Validate cfg := by
  unfold Config.ValidateRun Config.Validate
  cases h : urlParseS cfg.databaseURI with
  | error e => exact ⟨rfl, rfl⟩
  | ok u =>
    refine ⟨?_, ?_⟩ <;> dsimp only <;> split_ifs <;> rfl

/-- C8: the default database URI and default user agent constants have
exactly the documented values. -/
theorem default_config_values :
    defaultDatabaseURI = "bolt://localhost:7687" ∧
    defaultUserAgent = "opentelemetrycollector.cyphergraphexporter" :=
  ⟨rfl, rfl⟩

/-- C9: an empty database URI is accepted: with no credential conflict,
Validate returns nil rather than a malformed-URI error. -/
theorem validate_accepts_empty_uri (cfg : Config) (h0 : cfg.databaseURI = "")
    (hcred : ¬ credConflict cfg) : Config.Validate cfg = none :=
  validate_none_of_wf_no_conflict cfg (by rw [h0]; decide) hcred

/-- C9 witness: the all-empty configuration with an empty URI validates. -/
theorem validate_accepts_empty_uri_witness :
    Config.Validate emptyURIConfig = none :=
  validate_accepts_empty_uri emptyURIConfig rfl (by decide)

/-- C10: the result of Validate is independent of the password field. -/
theorem validate_ignores_password (cfg : Config) (p : String) :
    Config.Validate { cfg with password := p } = Config.Validate cfg := rfl

end CypherGraph
